import Mathlib

/-!
Verification of the batch user-provisioning script (create-users2.py).

The script is embedded shallowly: the observable behaviour of one run is a
list of `Event`s — console prints and executed OS commands.  The run mode
(dry-run vs live) is a boolean computed once from the line read from the
controlling terminal; the record stream is the list of stdin lines (without
their trailing newline).  Python's `str.strip` and `str.split` are embedded
as structurally recursive functions on the character list of the string,
with their Python semantics: `strip` removes whitespace from both ends,
`split(sep)` splits on every occurrence of the separator and maps the empty
string to a single empty field.
-/

/-- One observable step of the script: a console print, or the execution of
an external OS command via os.system. -/
inductive Event where
  | print (s : String)
  | exec (cmd : String)
deriving DecidableEq, Repr

/-- Python `str.strip()` on the character list: drop whitespace from both ends. -/
def trimCh (cs : List Char) : List Char :=
  ((cs.dropWhile Char.isWhitespace).reverse.dropWhile Char.isWhitespace).reverse

/-- Python `str.split(sep)` on the character list: split at every occurrence
of `sep`; the empty string yields one empty field. -/
def splitCh (sep : Char) : List Char → List (List Char)
  | [] => [[]]
  | c :: cs =>
    match splitCh sep cs with
    | [] => [[]]
    | g :: gs => if c = sep then [] :: g :: gs else (c :: g) :: gs

/-- The comment test `re.match("^#", line)`: the line is a comment iff its
first character is the hash mark. -/
def isComment (line : String) : Bool :=
  line.data.head? == some '#'

/-- The fields `line.strip().split(':')`: the colon-separated fields of the
trimmed line. -/
def fieldsOf (line : String) : List String :=
  (splitCh ':' (trimCh line.data)).map String.mk

/-- The group entries `fields[4].split(',')`: the comma-separated group
list. -/
def groupsOf (groupField : String) : List String :=
  (splitCh ',' groupField.data).map String.mk

/-- The command `"/usr/sbin/useradd -m -c '%s' %s" % (gecos, username)`. -/
def create_cmd (gecos username : String) : String :=
  "/usr/sbin/useradd -m -c '" ++ gecos ++ "' " ++ username

/-- The command built by
`"/bin/echo -ne '%s\n%s' | /usr/bin/sudo /usr/bin/passwd %s" % (password, password, username)`. -/
def passwd_cmd (password username : String) : String :=
  "/bin/echo -ne '" ++ password ++ "\n" ++ password ++ "' | /usr/bin/sudo /usr/bin/passwd " ++ username

/-- The command `"/usr/sbin/adduser %s %s" % (username, group)`. -/
def group_cmd (username group : String) : String :=
  "/usr/sbin/adduser " ++ username ++ " " ++ group

/-- The dry-run/live duality applied to one built command: in dry-run mode
print the command with the "would run" marker; in live mode print the
command and execute it. -/
def runCmd (dry_run : Bool) (cmd : String) : List Event :=
  if dry_run then [Event.print ("DRY-RUN: would run: " ++ cmd)]
  else [Event.print cmd, Event.exec cmd]

/-- The body of `for group in groups`: entries equal to "-" are skipped;
every other entry gets an announcement and an adduser command. -/
def processGroup (dry_run : Bool) (username group : String) : List Event :=
  if group ≠ "-" then
    Event.print ("==> Assigning " ++ username ++ " to the " ++ group ++ " group...")
      :: runCmd dry_run (group_cmd username group)
  else []

/-- The straight-line part of the loop body for a valid record: announce and
run the useradd command, announce and run the passwd command, then handle
each group of the comma-split fifth field in order. -/
def recordEvents (dry_run : Bool) (username password lastName firstName groupField : String) : List Event :=
  Event.print ("==> Creating account for " ++ username ++ "...")
    :: (runCmd dry_run (create_cmd (firstName ++ " " ++ lastName ++ ",,,") username)
    ++ (Event.print ("==> Setting the password for " ++ username ++ "...")
    :: (runCmd dry_run (passwd_cmd password username)
    ++ ((groupsOf groupField).map (processGroup dry_run username)).flatten)))

/-- The body of the main loop for one input line (the line is given without
its trailing newline, as `raw_line` in the source). -/
def processLine (dry_run : Bool) (line : String) : List Event :=
  if isComment line then
    if dry_run then [Event.print ("SKIP (comment line): " ++ line)] else []
  else
    match fieldsOf line with
    | [username, password, lastName, firstName, groupField] =>
      recordEvents dry_run username password lastName firstName groupField
    | _ =>
      if dry_run then [Event.print ("ERROR (dry-run): Not enough fields in line: " ++ line)] else []

/-- The loop `for line in sys.stdin`, with the mode already fixed. -/
def processAll (dry_run : Bool) (lines : List String) : List Event :=
  (lines.map (processLine dry_run)).flatten

/-- The mode flag `mode = tty.readline().strip().upper(); dry_run = (mode == "Y")`. -/
def dry_run_of (ttyLine : String) : Bool :=
  String.mk ((trimCh ttyLine.data).map Char.toUpper) == "Y"

/-- The whole script: the first argument is the single line read from the
controlling terminal /dev/tty, the second the lines of standard input. -/
def script (ttyLine : String) (stdinLines : List String) : List Event :=
  processAll (dry_run_of ttyLine) stdinLines

/-- The commands executed against the OS in a trace, in order. -/
def execCmds : List Event → List String
  | [] => []
  | Event.exec c :: es => c :: execCmds es
  | Event.print _ :: es => execCmds es

/-- Strip an expected character-list prefix, or fail. -/
def stripPrefixCh : List Char → List Char → Option (List Char)
  | [], s => some s
  | _ :: _, [] => none
  | a :: as, b :: bs => if a = b then stripPrefixCh as bs else none

/-- The commands printed with the "would run" marker in a trace, in order. -/
def wouldRunCmds : List Event → List String
  | [] => []
  | Event.exec _ :: es => wouldRunCmds es
  | Event.print s :: es =>
    match stripPrefixCh ("DRY-RUN: would run: ".data) s.data with
    | some cs => String.mk cs :: wouldRunCmds es
    | none => wouldRunCmds es

theorem stripPrefixCh_pre (p s : List Char) : stripPrefixCh p (p ++ s) = some s := by
  induction p with
  | nil => rfl
  | cons a as ih => simp [stripPrefixCh, ih]

theorem stripPrefixCh_wouldRun (c : String) :
    stripPrefixCh ("DRY-RUN: would run: ".data) (("DRY-RUN: would run: " ++ c).data) = some c.data := by
  rw [String.data_append]
  exact stripPrefixCh_pre _ _

theorem stripPrefixCh_skip (raw : String) :
    stripPrefixCh ("DRY-RUN: would run: ".data) (("SKIP (comment line): " ++ raw).data) = none := by
  cases raw
  rfl

theorem stripPrefixCh_err (raw : String) :
    stripPrefixCh ("DRY-RUN: would run: ".data)
      (("ERROR (dry-run): Not enough fields in line: " ++ raw).data) = none := by
  cases raw
  rfl

theorem stripPrefixCh_create (u : String) :
    stripPrefixCh ("DRY-RUN: would run: ".data)
      (("==> Creating account for " ++ u ++ "...").data) = none := by
  cases u
  rfl

theorem stripPrefixCh_passwd (u : String) :
    stripPrefixCh ("DRY-RUN: would run: ".data)
      (("==> Setting the password for " ++ u ++ "...").data) = none := by
  cases u
  rfl

theorem stripPrefixCh_assign (u g : String) :
    stripPrefixCh ("DRY-RUN: would run: ".data)
      (("==> Assigning " ++ u ++ " to the " ++ g ++ " group...").data) = none := by
  cases u
  cases g
  rfl

theorem execCmds_append (a b : List Event) : execCmds (a ++ b) = execCmds a ++ execCmds b := by
  induction a with
  | nil => rfl
  | cons e es ih => cases e <;> simp [execCmds, ih]

theorem wouldRunCmds_append (a b : List Event) :
    wouldRunCmds (a ++ b) = wouldRunCmds a ++ wouldRunCmds b := by
  induction a with
  | nil => rfl
  | cons e es ih =>
    cases e with
    | exec c => simp [wouldRunCmds, ih]
    | print s =>
      simp only [List.cons_append, wouldRunCmds]
      cases stripPrefixCh ("DRY-RUN: would run: ".data) s.data <;> simp [ih]

theorem execCmds_runCmd_live (c : String) : execCmds (runCmd false c) = [c] := rfl

theorem execCmds_runCmd_dry (c : String) : execCmds (runCmd true c) = [] := rfl

theorem wouldRunCmds_runCmd_dry (c : String) : wouldRunCmds (runCmd true c) = [c] := rfl

theorem processGroup_exec_dry (u g : String) : execCmds (processGroup true u g) = [] := by
  by_cases h : g = "-" <;> simp [processGroup, h, runCmd, execCmds]

theorem processGroup_parity (u g : String) :
    execCmds (processGroup false u g) = wouldRunCmds (processGroup true u g) := by
  by_cases h : g = "-"
  · simp [processGroup, h, execCmds, wouldRunCmds]
  · simp only [processGroup, h, ne_eq, not_false_eq_true, if_pos, runCmd, if_neg]
    rfl

theorem groupSeg_exec_dry (u : String) (gs : List String) :
    execCmds ((gs.map (processGroup true u)).flatten) = [] := by
  induction gs with
  | nil => rfl
  | cons g gs ih => simp [List.flatten_cons, execCmds_append, processGroup_exec_dry, ih]

theorem groupSeg_parity (u : String) (gs : List String) :
    execCmds ((gs.map (processGroup false u)).flatten)
      = wouldRunCmds ((gs.map (processGroup true u)).flatten) := by
  induction gs with
  | nil => rfl
  | cons g gs ih =>
    simp [List.flatten_cons, execCmds_append, wouldRunCmds_append, processGroup_parity, ih]

theorem groupSeg_count (u : String) (gs : List String) :
    (execCmds ((gs.map (processGroup false u)).flatten)).length
      = gs.length - gs.countP (fun x => x == "-") := by
  induction gs with
  | nil => rfl
  | cons g gs ih =>
    have hle : gs.countP (fun x => x == "-") ≤ gs.length := List.countP_le_length _
    by_cases h : g = "-"
    · simp [List.flatten_cons, execCmds_append, processGroup, h, ih, List.countP_cons]
    · simp [List.flatten_cons, execCmds_append, processGroup, h, runCmd, execCmds, ih,
        List.countP_cons]
      omega

theorem recordEvents_exec_dry (u p l f gf : String) :
    execCmds (recordEvents true u p l f gf) = [] := by
  simp [recordEvents, execCmds, execCmds_append, runCmd, groupSeg_exec_dry]

theorem recordEvents_exec_live (u p l f gf : String) :
    execCmds (recordEvents false u p l f gf)
      = create_cmd (f ++ " " ++ l ++ ",,,") u :: passwd_cmd p u
        :: execCmds (((groupsOf gf).map (processGroup false u)).flatten) := by
  simp [recordEvents, execCmds, execCmds_append, runCmd]

theorem runCmd_true_eq (c : String) :
    runCmd true c = [Event.print ("DRY-RUN: would run: " ++ c)] := rfl

theorem runCmd_false_eq (c : String) :
    runCmd false c = [Event.print c, Event.exec c] := rfl

theorem wouldRunCmds_print_other (s : String) (es : List Event)
    (h : stripPrefixCh ("DRY-RUN: would run: ".data) s.data = none) :
    wouldRunCmds (Event.print s :: es) = wouldRunCmds es := by
  simp [wouldRunCmds, h]

theorem wouldRunCmds_print_mark (c : String) (es : List Event) :
    wouldRunCmds (Event.print ("DRY-RUN: would run: " ++ c) :: es) = c :: wouldRunCmds es := rfl

theorem recordEvents_parity (u p l f gf : String) :
    execCmds (recordEvents false u p l f gf) = wouldRunCmds (recordEvents true u p l f gf) := by
  simp only [recordEvents, runCmd_true_eq, runCmd_false_eq, List.cons_append, List.nil_append]
  rw [wouldRunCmds_print_other _ _ (stripPrefixCh_create u),
    wouldRunCmds_print_mark,
    wouldRunCmds_print_other _ _ (stripPrefixCh_passwd u),
    wouldRunCmds_print_mark]
  simp only [execCmds]
  rw [groupSeg_parity]

theorem processLine_comment (dry_run : Bool) (line : String) (h : isComment line = true) :
    processLine dry_run line
      = if dry_run then [Event.print ("SKIP (comment line): " ++ line)] else [] := by
  simp [processLine, h]

theorem processLine_malformed (dry_run : Bool) (line : String) (hc : isComment line = false)
    (hn : (fieldsOf line).length ≠ 5) :
    processLine dry_run line
      = if dry_run then [Event.print ("ERROR (dry-run): Not enough fields in line: " ++ line)]
        else [] := by
  unfold processLine
  rw [hc]
  simp only [Bool.false_eq_true, if_false]
  split
  · rename_i heq
    rw [heq] at hn
    simp at hn
  · rfl

theorem processLine_valid (dry_run : Bool) (line u p l f gf : String)
    (hc : isComment line = false) (hf : fieldsOf line = [u, p, l, f, gf]) :
    processLine dry_run line = recordEvents dry_run u p l f gf := by
  unfold processLine
  rw [hc, hf]
  rfl

theorem processLine_exec_dry (line : String) : execCmds (processLine true line) = [] := by
  by_cases hc : isComment line = true
  · rw [processLine_comment true line hc]
    rfl
  · have hc' : isComment line = false := by simpa using hc
    by_cases hn : (fieldsOf line).length = 5
    · rcases hlist : fieldsOf line with _ | ⟨u, _ | ⟨p, _ | ⟨l, _ | ⟨f, _ | ⟨gf, _ | ⟨x, r⟩⟩⟩⟩⟩⟩ <;>
        rw [hlist] at hn <;> simp at hn
      rw [processLine_valid true line u p l f gf hc' hlist]
      exact recordEvents_exec_dry u p l f gf
    · rw [processLine_malformed true line hc' hn]
      rfl

theorem processLine_parity (line : String) :
    execCmds (processLine false line) = wouldRunCmds (processLine true line) := by
  by_cases hc : isComment line = true
  · rw [processLine_comment true line hc, processLine_comment false line hc]
    rfl
  · have hc' : isComment line = false := by simpa using hc
    by_cases hn : (fieldsOf line).length = 5
    · rcases hlist : fieldsOf line with _ | ⟨u, _ | ⟨p, _ | ⟨l, _ | ⟨f, _ | ⟨gf, _ | ⟨x, r⟩⟩⟩⟩⟩⟩ <;>
        rw [hlist] at hn <;> simp at hn
      rw [processLine_valid false line u p l f gf hc' hlist,
        processLine_valid true line u p l f gf hc' hlist]
      exact recordEvents_parity u p l f gf
    · rw [processLine_malformed true line hc' hn, processLine_malformed false line hc' hn]
      rfl

theorem processAll_exec_dry (lines : List String) : execCmds (processAll true lines) = [] := by
  induction lines with
  | nil => rfl
  | cons line rest ih =>
    simp [processAll, List.flatten_cons, execCmds_append, processLine_exec_dry] at ih ⊢
    exact ih

theorem processAll_parity (lines : List String) :
    execCmds (processAll false lines) = wouldRunCmds (processAll true lines) := by
  induction lines with
  | nil => rfl
  | cons line rest ih =>
    simp only [processAll, List.map_cons, List.flatten_cons, execCmds_append,
      wouldRunCmds_append] at ih ⊢
    rw [processLine_parity, ih]

theorem processLine_comment_dry (line : String) (h : isComment line = true) :
    processLine true line = [Event.print ("SKIP (comment line): " ++ line)] := by
  rw [processLine_comment true line h]
  rfl

theorem processLine_comment_live (line : String) (h : isComment line = true) :
    processLine false line = [] := by
  rw [processLine_comment false line h]
  rfl

theorem processLine_malformed_dry (line : String) (hc : isComment line = false)
    (hn : (fieldsOf line).length ≠ 5) :
    processLine true line = [Event.print ("ERROR (dry-run): Not enough fields in line: " ++ line)] := by
  rw [processLine_malformed true line hc hn]
  rfl

theorem processLine_malformed_live (line : String) (hc : isComment line = false)
    (hn : (fieldsOf line).length ≠ 5) :
    processLine false line = [] := by
  rw [processLine_malformed false line hc hn]
  rfl

theorem create_cmd_eq (f l u : String) :
    create_cmd (f ++ " " ++ l ++ ",,,") u
      = "/usr/sbin/useradd -m " ++ ("-c '" ++ f ++ " " ++ l ++ ",,,'") ++ (" " ++ u) := by
  have h1 : ("/usr/sbin/useradd -m -c '" : String) = "/usr/sbin/useradd -m " ++ "-c '" := rfl
  have h2 : ("' " : String) = "'" ++ " " := rfl
  have h3 : (",,,'" : String) = ",,," ++ "'" := rfl
  simp only [create_cmd]
  rw [h1, h2, h3]
  simp only [String.append_assoc]

theorem create_gecos_in_cmd (f l u : String) :
    ("-c '" ++ f ++ " " ++ l ++ ",,,'").data <:+: (create_cmd (f ++ " " ++ l ++ ",,,") u).data := by
  rw [create_cmd_eq, String.data_append, String.data_append]
  exact List.infix_append _ _ _

theorem passwd_cmd_eq (p u : String) :
    passwd_cmd p u
      = "/bin/echo -ne '" ++ (p ++ "\n" ++ p) ++ ("' | /usr/bin/sudo /usr/bin/passwd " ++ u) := by
  simp [passwd_cmd, String.append_assoc]

theorem passwd_payload_in_cmd (p u : String) :
    (p ++ "\n" ++ p).data <:+: (passwd_cmd p u).data := by
  rw [passwd_cmd_eq, String.data_append, String.data_append]
  exact List.infix_append _ _ _

theorem infix_append_left {x b : List Char} (a : List Char) (h : x <:+: b) : x <:+: a ++ b := by
  obtain ⟨s, t, hst⟩ := h
  exact ⟨a ++ s, t, by rw [← hst]; simp [List.append_assoc]⟩

theorem recordEvents_mem_group (d : Bool) (u p l f gf g : String) (hg : g ∈ groupsOf gf)
    (e : Event) (he : e ∈ processGroup d u g) : e ∈ recordEvents d u p l f gf := by
  unfold recordEvents
  apply List.mem_cons_of_mem
  apply List.mem_append_right
  apply List.mem_cons_of_mem
  apply List.mem_append_right
  exact List.mem_flatten.mpr ⟨processGroup d u g, List.mem_map_of_mem _ hg, he⟩

theorem dry_run_of_iff (tty : String) :
    dry_run_of tty = true ↔ (trimCh tty.data).map Char.toUpper = ['Y'] := by
  simp [dry_run_of, String.ext_iff]

/-- C1 (amended): for every input line whose FIRST character is the hash
mark (no leading whitespace allowed), the line is classified as a comment
and never treated as a record: in live mode nothing at all is emitted, in
dry-run mode only the SKIP diagnostic is printed, and no command is ever
executed or marked "would run" in either mode. -/
theorem comment_line_no_actions (line : String) (h : line.data.head? = some '#') :
    processLine false line = []
    ∧ processLine true line = [Event.print ("SKIP (comment line): " ++ line)]
    ∧ execCmds (processLine true line) = []
    ∧ wouldRunCmds (processLine true line) = [] := by
  have hc : isComment line = true := by simp [isComment, h]
  refine ⟨processLine_comment_live line hc, processLine_comment_dry line hc, ?_, ?_⟩
  · rw [processLine_comment_dry line hc]
    rfl
  · rw [processLine_comment_dry line hc]
    rfl

/-- C1 witness: the comment line "#hello" produces no action in either
mode. -/
theorem comment_line_no_actions_witness :
    ("#hello").data.head? = some '#'
    ∧ processLine false "#hello" = []
    ∧ processLine true "#hello" = [Event.print ("SKIP (comment line): " ++ "#hello")] :=
  ⟨by decide, (comment_line_no_actions "#hello" (by decide)).1,
    (comment_line_no_actions "#hello" (by decide)).2.1⟩

/-- C1 counterexample: the line " #a:b:c:d:e" has '#' as its first
non-whitespace character (there is leading whitespace before the '#'), yet
the script does not classify it as a comment: after stripping it has 5
colon-separated fields, so it is treated as a record and in live mode a
useradd, a passwd and an adduser command are executed for it. -/
theorem comment_leading_ws_counterexample :
    (trimCh (String.data " #a:b:c:d:e")).head? = some '#'
    ∧ isComment " #a:b:c:d:e" = false
    ∧ execCmds (processLine false " #a:b:c:d:e")
        = ["/usr/sbin/useradd -m -c 'd c,,,' #a",
           "/bin/echo -ne 'b\nb' | /usr/bin/sudo /usr/bin/passwd #a",
           "/usr/sbin/adduser #a e"] := by
  refine ⟨by decide, by decide, by decide⟩

/-- C2: for every input stream, dry-run mode executes no OS command at all,
and the commands executed in live mode are, in order, exactly the commands
printed with the "would run" marker in the dry-run pass over the same
input. -/
theorem dry_live_parity (lines : List String) :
    execCmds (processAll true lines) = []
    ∧ execCmds (processAll false lines) = wouldRunCmds (processAll true lines) :=
  ⟨processAll_exec_dry lines, processAll_parity lines⟩

/-- C3: every non-comment line whose trimmed colon-split field count is not
exactly 5 is malformed: classification is total (the embedding is a total
function, so no exception can occur), nothing is emitted in live mode, only
the ERROR diagnostic appears in dry-run mode, and no command is ever
executed or marked "would run" in either mode. -/
theorem malformed_no_actions (line : String) (hc : isComment line = false)
    (hn : (fieldsOf line).length ≠ 5) :
    processLine false line = []
    ∧ processLine true line = [Event.print ("ERROR (dry-run): Not enough fields in line: " ++ line)]
    ∧ (∀ d, execCmds (processLine d line) = [] ∧ wouldRunCmds (processLine d line) = []) := by
  refine ⟨processLine_malformed_live line hc hn, processLine_malformed_dry line hc hn, ?_⟩
  intro d
  cases d
  · rw [processLine_malformed_live line hc hn]
    exact ⟨rfl, rfl⟩
  · rw [processLine_malformed_dry line hc hn]
    exact ⟨rfl, rfl⟩

/-- C3 witness: the empty line splits to one empty field, is malformed, and
produces no action. -/
theorem malformed_no_actions_witness :
    isComment "" = false ∧ fieldsOf "" = [""] ∧ (fieldsOf "").length ≠ 5
    ∧ processLine false "" = []
    ∧ processLine true "" = [Event.print ("ERROR (dry-run): Not enough fields in line: " ++ "")] :=
  ⟨by decide, by decide, by decide,
    (malformed_no_actions "" (by decide) (by decide)).1,
    (malformed_no_actions "" (by decide) (by decide)).2.1⟩

/-- C4: for every valid record, exactly 3 action groups are attempted in
the fixed order create, password, groups, and the number of emitted
group-assignment commands equals the length of the group list minus the
number of entries equal to "-". -/
theorem valid_record_actions (d : Bool) (line u p l f gf : String)
    (hc : isComment line = false) (hf : fieldsOf line = [u, p, l, f, gf]) :
    processLine d line
      = (Event.print ("==> Creating account for " ++ u ++ "...")
          :: runCmd d (create_cmd (f ++ " " ++ l ++ ",,,") u))
        ++ ((Event.print ("==> Setting the password for " ++ u ++ "...")
          :: runCmd d (passwd_cmd p u))
        ++ ((groupsOf gf).map (processGroup d u)).flatten)
    ∧ (execCmds (((groupsOf gf).map (processGroup false u)).flatten)).length
        = (groupsOf gf).length - (groupsOf gf).countP (fun x => x == "-")
    ∧ (wouldRunCmds (((groupsOf gf).map (processGroup true u)).flatten)).length
        = (groupsOf gf).length - (groupsOf gf).countP (fun x => x == "-") := by
  refine ⟨?_, groupSeg_count u (groupsOf gf), ?_⟩
  · rw [processLine_valid d line u p l f gf hc hf]
    rfl
  · rw [← groupSeg_parity]
    exact groupSeg_count u (groupsOf gf)

/-- C4 witness: the record "bob:pw:Lee:Bob:-" yields the create and
password action groups and zero group actions. -/
theorem valid_record_actions_witness :
    isComment "bob:pw:Lee:Bob:-" = false
    ∧ fieldsOf "bob:pw:Lee:Bob:-" = ["bob", "pw", "Lee", "Bob", "-"]
    ∧ (groupsOf "-").length - (groupsOf "-").countP (fun x => x == "-") = 0
    ∧ execCmds (processLine false "bob:pw:Lee:Bob:-")
        = [create_cmd ("Bob" ++ " " ++ "Lee" ++ ",,,") "bob", passwd_cmd "pw" "bob"]
    ∧ processLine false "bob:pw:Lee:Bob:-"
        = (Event.print ("==> Creating account for " ++ "bob" ++ "...")
            :: runCmd false (create_cmd ("Bob" ++ " " ++ "Lee" ++ ",,,") "bob"))
          ++ ((Event.print ("==> Setting the password for " ++ "bob" ++ "...")
            :: runCmd false (passwd_cmd "pw" "bob"))
          ++ ((groupsOf "-").map (processGroup false "bob")).flatten) :=
  ⟨by decide, by decide, by decide, by decide,
    (valid_record_actions false "bob:pw:Lee:Bob:-" "bob" "pw" "Lee" "Bob" "-"
      (by decide) (by decide)).1⟩

/-- C5: for every valid record, the first executed command is the add-user
command; it has home-directory creation enabled (the "-m" flag) and its
comment/full-name argument is "-c '<firstName> <lastName>,,,'", the fourth
field, a space, the third field, then ",,,". -/
theorem useradd_cmd_shape (line u p l f gf : String)
    (hc : isComment line = false) (hf : fieldsOf line = [u, p, l, f, gf]) :
    (execCmds (processLine false line)).head? = some (create_cmd (f ++ " " ++ l ++ ",,,") u)
    ∧ create_cmd (f ++ " " ++ l ++ ",,,") u
        = "/usr/sbin/useradd -m " ++ ("-c '" ++ f ++ " " ++ l ++ ",,,'") ++ (" " ++ u)
    ∧ ("-c '" ++ f ++ " " ++ l ++ ",,,'").data <:+: (create_cmd (f ++ " " ++ l ++ ",,,") u).data := by
  refine ⟨?_, create_cmd_eq f l u, create_gecos_in_cmd f l u⟩
  rw [processLine_valid false line u p l f gf hc hf, recordEvents_exec_live]
  rfl

/-- C5 witness: for the record alice:Secret1:Smith:Alice:wheel,docker the
add-user command is "/usr/sbin/useradd -m -c 'Alice Smith,,,' alice", which
contains -c 'Alice Smith,,,'. -/
theorem useradd_cmd_shape_witness :
    isComment "alice:Secret1:Smith:Alice:wheel,docker" = false
    ∧ fieldsOf "alice:Secret1:Smith:Alice:wheel,docker"
        = ["alice", "Secret1", "Smith", "Alice", "wheel,docker"]
    ∧ (execCmds (processLine false "alice:Secret1:Smith:Alice:wheel,docker")).head?
        = some (create_cmd ("Alice" ++ " " ++ "Smith" ++ ",,,") "alice")
    ∧ create_cmd ("Alice" ++ " " ++ "Smith" ++ ",,,") "alice"
        = "/usr/sbin/useradd -m -c 'Alice Smith,,,' alice" :=
  ⟨by decide, by decide,
    (useradd_cmd_shape "alice:Secret1:Smith:Alice:wheel,docker"
      "alice" "Secret1" "Smith" "Alice" "wheel,docker" (by decide) (by decide)).1,
    by decide⟩

/-- C6: the run mode is a pure function of the single line read from the
controlling terminal, fixed before any record is processed and applied
unchanged to every input line; after trimming, a case-insensitive
comparison equal to "Y" selects dry-run, and every other response
(including "YES", "N" and the empty response) selects live mode. -/
theorem mode_selection (tty : String) (lines : List String) :
    script tty lines = (lines.map (processLine (dry_run_of tty))).flatten
    ∧ (dry_run_of tty = true ↔ (trimCh tty.data).map Char.toUpper = ['Y'])
    ∧ dry_run_of "y" = true ∧ dry_run_of " Y " = true ∧ dry_run_of "YES" = false
    ∧ dry_run_of "N" = false ∧ dry_run_of "" = false :=
  ⟨rfl, dry_run_of_iff tty, by decide, by decide, by decide, by decide, by decide⟩

/-- C7: a comment line produces exactly the SKIP diagnostic (naming the
reason and echoing the raw line) in dry-run mode and nothing in live mode;
a malformed line produces exactly the ERROR diagnostic in dry-run mode and
nothing in live mode; in both cases processing continues with the next
line. -/
theorem diagnostics_dry_only (line : String) :
    (isComment line = true →
      processLine true line = [Event.print ("SKIP (comment line): " ++ line)]
      ∧ processLine false line = [])
    ∧ (isComment line = false → (fieldsOf line).length ≠ 5 →
      processLine true line = [Event.print ("ERROR (dry-run): Not enough fields in line: " ++ line)]
      ∧ processLine false line = [])
    ∧ (∀ d rest, processAll d (line :: rest) = processLine d line ++ processAll d rest) :=
  ⟨fun h => ⟨processLine_comment_dry line h, processLine_comment_live line h⟩,
    fun hc hn => ⟨processLine_malformed_dry line hc hn, processLine_malformed_live line hc hn⟩,
    fun _ _ => rfl⟩

/-- C7 witness: the comment line "# setup file" and the malformed line
"badline:onlytwo" produce their diagnostic in dry-run mode only. -/
theorem diagnostics_dry_only_witness :
    (processLine true "# setup file" = [Event.print ("SKIP (comment line): " ++ "# setup file")]
      ∧ processLine false "# setup file" = [])
    ∧ (processLine true "badline:onlytwo"
        = [Event.print ("ERROR (dry-run): Not enough fields in line: " ++ "badline:onlytwo")]
      ∧ processLine false "badline:onlytwo" = []) :=
  ⟨(diagnostics_dry_only "# setup file").1 (by decide),
    (diagnostics_dry_only "badline:onlytwo").2.1 (by decide) (by decide)⟩

/-- C8: for every valid record the second executed command is the
password-assignment command: it pipes the password written exactly twice,
separated by a newline, into the password-set facility run under sudo with
the username as target. -/
theorem passwd_cmd_shape (line u p l f gf : String)
    (hc : isComment line = false) (hf : fieldsOf line = [u, p, l, f, gf]) :
    execCmds (processLine false line)
      = create_cmd (f ++ " " ++ l ++ ",,,") u :: passwd_cmd p u
        :: execCmds (((groupsOf gf).map (processGroup false u)).flatten)
    ∧ passwd_cmd p u
        = "/bin/echo -ne '" ++ (p ++ "\n" ++ p) ++ ("' | /usr/bin/sudo /usr/bin/passwd " ++ u)
    ∧ (p ++ "\n" ++ p).data <:+: (passwd_cmd p u).data := by
  refine ⟨?_, passwd_cmd_eq p u, passwd_payload_in_cmd p u⟩
  rw [processLine_valid false line u p l f gf hc hf, recordEvents_exec_live]

/-- C8 witness: for the record alice:Secret1:Smith:Alice:wheel,docker the
password command echoes Secret1 twice, newline-separated, into sudo passwd
alice. -/
theorem passwd_cmd_shape_witness :
    isComment "alice:Secret1:Smith:Alice:wheel,docker" = false
    ∧ fieldsOf "alice:Secret1:Smith:Alice:wheel,docker"
        = ["alice", "Secret1", "Smith", "Alice", "wheel,docker"]
    ∧ passwd_cmd "Secret1" "alice"
        = "/bin/echo -ne 'Secret1\nSecret1' | /usr/bin/sudo /usr/bin/passwd alice"
    ∧ execCmds (processLine false "alice:Secret1:Smith:Alice:wheel,docker")
        = create_cmd ("Alice" ++ " " ++ "Smith" ++ ",,,") "alice" :: passwd_cmd "Secret1" "alice"
          :: execCmds (((groupsOf "wheel,docker").map (processGroup false "alice")).flatten) :=
  ⟨by decide, by decide, by decide,
    (passwd_cmd_shape "alice:Secret1:Smith:Alice:wheel,docker"
      "alice" "Secret1" "Smith" "Alice" "wheel,docker" (by decide) (by decide)).1⟩

/-- C9: for every valid record whose group list contains an empty entry
(for example from two consecutive commas), the empty entry is NOT skipped —
only entries exactly equal to "-" are — so an announcement with an empty
group name and an adduser command with an empty group argument are emitted
for it, in either mode. -/
theorem empty_group_not_skipped (d : Bool) (line u p l f gf : String)
    (hc : isComment line = false) (hf : fieldsOf line = [u, p, l, f, gf])
    (hg : "" ∈ groupsOf gf) :
    Event.print ("==> Assigning " ++ u ++ " to the " ++ "" ++ " group...") ∈ processLine d line
    ∧ (if d then Event.print ("DRY-RUN: would run: " ++ group_cmd u "")
        else Event.exec (group_cmd u "")) ∈ processLine d line := by
  have hne : ("" : String) ≠ "-" := by decide
  have hpg : processGroup d u ""
      = Event.print ("==> Assigning " ++ u ++ " to the " ++ "" ++ " group...")
        :: runCmd d (group_cmd u "") := by
    simp [processGroup, hne]
  rw [processLine_valid d line u p l f gf hc hf]
  constructor
  · exact recordEvents_mem_group d u p l f gf "" hg _ (hpg ▸ List.mem_cons_self _ _)
  · refine recordEvents_mem_group d u p l f gf "" hg _ ?_
    rw [hpg]
    apply List.mem_cons_of_mem
    cases d
    · simp [runCmd]
    · simp [runCmd]

/-- C9 witness: for the record carol:pw:Ln:Fn:wheel,,docker the group field
splits to ["wheel", "", "docker"], and in live mode the adduser command with
an empty group name, "/usr/sbin/adduser carol ", is executed. -/
theorem empty_group_not_skipped_witness :
    "" ∈ groupsOf "wheel,,docker"
    ∧ group_cmd "carol" "" = "/usr/sbin/adduser carol "
    ∧ Event.exec (group_cmd "carol" "") ∈ processLine false "carol:pw:Ln:Fn:wheel,,docker" := by
  refine ⟨by decide, by decide, ?_⟩
  have h := empty_group_not_skipped false "carol:pw:Ln:Fn:wheel,,docker"
    "carol" "pw" "Ln" "Fn" "wheel,,docker" (by decide) (by decide) (by decide)
  simpa using h.2

/-- C10: for every valid record, in both modes, a line containing the
password-assignment command — and in it the cleartext password written
twice, newline-separated — is printed to the console. -/
theorem password_on_console (d : Bool) (line u p l f gf : String)
    (hc : isComment line = false) (hf : fieldsOf line = [u, p, l, f, gf]) :
    ∃ s, Event.print s ∈ processLine d line ∧ (p ++ "\n" ++ p).data <:+: s.data := by
  rw [processLine_valid d line u p l f gf hc hf]
  cases d
  · refine ⟨passwd_cmd p u, ?_, passwd_payload_in_cmd p u⟩
    unfold recordEvents
    apply List.mem_cons_of_mem
    apply List.mem_append_right
    apply List.mem_cons_of_mem
    apply List.mem_append_left
    simp [runCmd]
  · refine ⟨"DRY-RUN: would run: " ++ passwd_cmd p u, ?_, ?_⟩
    · unfold recordEvents
      apply List.mem_cons_of_mem
      apply List.mem_append_right
      apply List.mem_cons_of_mem
      apply List.mem_append_left
      simp [runCmd]
    · rw [String.data_append]
      exact infix_append_left _ (passwd_payload_in_cmd p u)

/-- C10 witness: in dry-run mode the printed password line for the alice
record contains Secret1 twice, newline-separated. -/
theorem password_on_console_witness :
    ∃ s, Event.print s ∈ processLine true "alice:Secret1:Smith:Alice:wheel,docker"
      ∧ ("Secret1" ++ "\n" ++ "Secret1").data <:+: s.data :=
  password_on_console true "alice:Secret1:Smith:Alice:wheel,docker"
    "alice" "Secret1" "Smith" "Alice" "wheel,docker" (by decide) (by decide)
